import Mathlib

/-!
Shallow embedding of the DorukCem/Logger rolling log writer subsystem
(src/src/logger.rs) and verification of its specification claims.

Conventions of the embedding:
* Rust panics (`unwrap` / `expect`) are modelled as the error arm of
  `Except String`, carrying the panic / error message from the source.
* File I/O is modelled by explicit state: the active log file is a list of
  the lines appended to it.
* JSON documents (serde_json `Value`) are modelled by `JsonValue`; a JSON
  object is an association list of key/value pairs.
* The Rust field `file_prefix` is rendered `filePfx`, and the builder
  `with_file_prefix` is rendered `with_file_pfx`.
-/

/-- Model of serde_json `Value` restricted to the shapes the logger reads:
unsigned integers, strings, objects; `other` stands for every other JSON
value (null, bool, float, array), on which all three accessors fail. -/
inductive JsonValue where
  | num (n : Nat)
  | str (s : String)
  | obj (entries : List (String × JsonValue))
  | other

/-- Rust `Value::as_u64`. -/
def JsonValue.as_u64 : JsonValue → Option Nat
  | .num n => some n
  | _ => none

/-- Rust `Value::as_str`. -/
def JsonValue.as_str : JsonValue → Option String
  | .str s => some s
  | _ => none

/-- Rust `Value::as_object`. -/
def JsonValue.as_object : JsonValue → Option (List (String × JsonValue))
  | .obj entries => some entries
  | _ => none

/-- Equality on `Except` is decidable when it is on both components; used to
evaluate the embedded functions on concrete inputs. -/
instance {e a : Type} [DecidableEq e] [DecidableEq a] : DecidableEq (Except e a) := fun x y =>
  match x, y with
  | .error u, .error v => decidable_of_iff (u = v) (by simp)
  | .error _, .ok _ => .isFalse (by simp)
  | .ok _, .error _ => .isFalse (by simp)
  | .ok u, .ok v => decidable_of_iff (u = v) (by simp)

/-- Rust enum `LogLevel` (logger.rs lines 12-19). -/
inductive LogLevel where
  | Debug
  | Info
  | Warn
  | Error
  | Critical
deriving DecidableEq, Repr

/-- The discriminant values `Debug = 0, ..., Critical = 4` assigned in the
Rust enum declaration; the derived `Ord` on the Rust enum compares these. -/
def LogLevel.severity : LogLevel → Nat
  | .Debug => 0
  | .Info => 1
  | .Warn => 2
  | .Error => 3
  | .Critical => 4

/-- Rust `impl fmt::Display for LogLevel` (logger.rs lines 21-31). -/
def LogLevel.display : LogLevel → String
  | .Debug => "DEBUG"
  | .Info => "INFO"
  | .Warn => "WARN"
  | .Error => "ERROR"
  | .Critical => "CRITICAL"

/-- Rust `LogLevel::from_u64` (logger.rs lines 34-43), `Result<Self, ()>`. -/
def LogLevel.from_u64 (num : Nat) : Except Unit LogLevel :=
  match num with
  | 0 => .ok .Debug
  | 1 => .ok .Info
  | 2 => .ok .Warn
  | 3 => .ok .Error
  | 4 => .ok .Critical
  | _ => .error ()

/-- Rust enum `RollingSizeOptions` (logger.rs lines 231-246). -/
inductive RollingSizeOptions where
  | OneKB
  | FiveKB
  | TenKB
  | TwentyKB
  | FiftyKB
  | HundredKB
  | HalfMB
  | OneMB
  | FiveMB
  | TenMB
  | TwentyMB
  | FiftyMB
  | HundredMB
deriving DecidableEq, Repr

/-- The discriminant byte values assigned in the Rust enum declaration
(`OneKB = 1024`, ..., `HundredMB = 100 * 1024 * 1024`); `x as u64` in the
source reads these. -/
def RollingSizeOptions.toBytes : RollingSizeOptions → Nat
  | .OneKB => 1024
  | .FiveKB => 5 * 1024
  | .TenKB => 10 * 1024
  | .TwentyKB => 20 * 1024
  | .FiftyKB => 50 * 1024
  | .HundredKB => 100 * 1024
  | .HalfMB => 512 * 1024
  | .OneMB => 1024 * 1024
  | .FiveMB => 5 * 1024 * 1024
  | .TenMB => 10 * 1024 * 1024
  | .TwentyMB => 20 * 1024 * 1024
  | .FiftyMB => 50 * 1024 * 1024
  | .HundredMB => 100 * 1024 * 1024

/-- Rust `RollingSizeOptions::from_u64` (logger.rs lines 248-267): an exact
match against each catalog discriminant, in declaration order. -/
def RollingSizeOptions.from_u64 (value : Nat) : Except String RollingSizeOptions :=
  if value = RollingSizeOptions.OneKB.toBytes then .ok .OneKB
  else if value = RollingSizeOptions.FiveKB.toBytes then .ok .FiveKB
  else if value = RollingSizeOptions.TenKB.toBytes then .ok .TenKB
  else if value = RollingSizeOptions.TwentyKB.toBytes then .ok .TwentyKB
  else if value = RollingSizeOptions.FiftyKB.toBytes then .ok .FiftyKB
  else if value = RollingSizeOptions.HundredKB.toBytes then .ok .HundredKB
  else if value = RollingSizeOptions.HalfMB.toBytes then .ok .HalfMB
  else if value = RollingSizeOptions.OneMB.toBytes then .ok .OneMB
  else if value = RollingSizeOptions.FiveMB.toBytes then .ok .FiveMB
  else if value = RollingSizeOptions.TenMB.toBytes then .ok .TenMB
  else if value = RollingSizeOptions.TwentyMB.toBytes then .ok .TwentyMB
  else if value = RollingSizeOptions.FiftyMB.toBytes then .ok .FiftyMB
  else if value = RollingSizeOptions.HundredMB.toBytes then .ok .HundredMB
  else .error "Value does not match any known size option"

/-- Rust enum `RollingTimeOptions` (logger.rs lines 269-277). -/
inductive RollingTimeOptions where
  | Minutely
  | Hourly
  | Daily
  | Weekly
  | Monthly
  | Yearly
deriving DecidableEq, Repr

/-- The discriminant second values assigned in the Rust enum declaration
(`Minutely = 60`, ..., `Yearly = 12 * 30 * 24 * 60 * 60`). -/
def RollingTimeOptions.toSecs : RollingTimeOptions → Nat
  | .Minutely => 60
  | .Hourly => 60 * 60
  | .Daily => 24 * 60 * 60
  | .Weekly => 7 * 24 * 60 * 60
  | .Monthly => 30 * 24 * 60 * 60
  | .Yearly => 12 * 30 * 24 * 60 * 60

/-- Rust `RollingTimeOptions::from_u64` (logger.rs lines 280-290). -/
def RollingTimeOptions.from_u64 (value : Nat) : Except String RollingTimeOptions :=
  if value = RollingTimeOptions.Minutely.toSecs then .ok .Minutely
  else if value = RollingTimeOptions.Hourly.toSecs then .ok .Hourly
  else if value = RollingTimeOptions.Daily.toSecs then .ok .Daily
  else if value = RollingTimeOptions.Weekly.toSecs then .ok .Weekly
  else if value = RollingTimeOptions.Monthly.toSecs then .ok .Monthly
  else if value = RollingTimeOptions.Yearly.toSecs then .ok .Yearly
  else .error "Value does not match any known time option"

/-- Rust struct `RollingConfig` (logger.rs lines 176-180). -/
structure RollingConfig where
  time_threshold : RollingTimeOptions
  size_threshold : RollingSizeOptions
deriving DecidableEq, Repr

/-- Rust `RollingConfig::new` (logger.rs lines 183-188): Hourly / FiveMB. -/
def RollingConfig.new : RollingConfig :=
  { time_threshold := .Hourly, size_threshold := .FiveMB }

/-- Rust `RollingConfig::with_time_threshold` (logger.rs lines 190-193). -/
def RollingConfig.with_time_threshold (c : RollingConfig) (time : RollingTimeOptions) :
    RollingConfig :=
  { c with time_threshold := time }

/-- Rust `RollingConfig::with_size_threshold` (logger.rs lines 195-198). -/
def RollingConfig.with_size_threshold (c : RollingConfig) (size : RollingSizeOptions) :
    RollingConfig :=
  { c with size_threshold := size }

/-- One iteration of the `for (k, v) in keys` loop of
`RollingConfig::from_json` (logger.rs lines 205-225): recognized keys update
the config (panicking on a non-number or a non-catalog value, modelled as
errors), every other key hits the `_ => continue` arm. -/
def RollingConfig.applyKey (rolling_config : RollingConfig) (k : String) (v : JsonValue) :
    Except String RollingConfig :=
  if k = "size_threshold" then
    match v.as_u64 with
    | none => .error "expexted size threshold to be number"
    | some n =>
      match RollingSizeOptions.from_u64 n with
      | .error e => .error e
      | .ok size => .ok (rolling_config.with_size_threshold size)
  else if k = "time_threshold" then
    match v.as_u64 with
    | none => .error "expexted size threshold to be number"
    | some n =>
      match RollingTimeOptions.from_u64 n with
      | .error e => .error e
      | .ok time => .ok (rolling_config.with_time_threshold time)
  else
    .ok rolling_config

/-- The whole `for` loop of `RollingConfig::from_json`, folding `applyKey`
over the object entries. -/
def RollingConfig.applyKeys (rolling_config : RollingConfig) :
    List (String × JsonValue) → Except String RollingConfig
  | [] => .ok rolling_config
  | (k, v) :: rest =>
      match RollingConfig.applyKey rolling_config k v with
      | .error e => .error e
      | .ok c => RollingConfig.applyKeys c rest

/-- Rust `RollingConfig::from_json` (logger.rs lines 200-228). -/
def RollingConfig.from_json (json_value : JsonValue) : Except String RollingConfig :=
  match json_value.as_object with
  | none => .error "Cannot convert JSON to Dictionary"
  | some keys => RollingConfig.applyKeys RollingConfig.new keys

/-- Rust struct `LogConfig` (logger.rs lines 110-115); `filePfx` renders the
Rust field `file_prefix`. -/
structure LogConfig where
  level : LogLevel
  rolling_config : RollingConfig
  filePfx : String
deriving DecidableEq, Repr

/-- Rust `LogConfig::new` (logger.rs lines 118-124). -/
def LogConfig.new : LogConfig :=
  { level := .Info, rolling_config := RollingConfig.new, filePfx := "Logtar_" }

/-- Rust `LogConfig::with_level` (logger.rs lines 126-129). -/
def LogConfig.with_level (c : LogConfig) (level : LogLevel) : LogConfig :=
  { c with level := level }

/-- Rust `LogConfig::with_rolling_config` (logger.rs lines 130-133). -/
def LogConfig.with_rolling_config (c : LogConfig) (config : RollingConfig) : LogConfig :=
  { c with rolling_config := config }

/-- Rust `LogConfig::with_file_prefix` (logger.rs lines 134-137). -/
def LogConfig.with_file_pfx (c : LogConfig) (p : String) : LogConfig :=
  { c with filePfx := p }

/-- One iteration of the `for (k, v) in keys` loop of
`LogConfig::from_json_file` (logger.rs lines 149-170). -/
def LogConfig.applyKey (config : LogConfig) (k : String) (v : JsonValue) :
    Except String LogConfig :=
  if k = "level" then
    match v.as_u64 with
    | none => .error "expexted config level to be number"
    | some n =>
      match LogLevel.from_u64 n with
      | .ok lvl => .ok (config.with_level lvl)
      | .error _ => .error "Expected log level to be in range 0..=4"
  else if k = "rolling_config" then
    match RollingConfig.from_json v with
    | .error e => .error e
    | .ok rc => .ok (config.with_rolling_config rc)
  else if k = "file_prefix" then
    match v.as_str with
    | none => .error "Expected file prefix to be a string"
    | some s => .ok (config.with_file_pfx s)
  else
    .ok config

/-- The whole `for` loop of `LogConfig::from_json_file`. -/
def LogConfig.applyKeys (config : LogConfig) :
    List (String × JsonValue) → Except String LogConfig
  | [] => .ok config
  | (k, v) :: rest =>
      match LogConfig.applyKey config k v with
      | .error e => .error e
      | .ok c => LogConfig.applyKeys c rest

/-- Rust `LogConfig::from_json_file` (logger.rs lines 139-173), starting from
the already-parsed document (file reading and JSON parsing are the external
library capability; their failures are out of scope of the loaded document's
semantics). -/
def LogConfig.from_json_file (js : JsonValue) : Except String LogConfig :=
  match js.as_object with
  | none => .error "Cannot convert JSON to Dictionary"
  | some keys => LogConfig.applyKeys LogConfig.new keys

/-- Rust struct `Logger` (logger.rs lines 46-50): the `File` handle is
modelled by the created path and the list of lines written to it. -/
structure Logger where
  config : LogConfig
  filePath : String
  fileLines : List String
deriving DecidableEq, Repr

/-- Rust `Logger::new` (logger.rs lines 53-70): `now` is the string rendering
of `Utc::now()`; the path is `logs/<file_prefix><sanitized now>.log` where
`.` and `:` become `-` and the space becomes `T`, and the file starts empty. -/
def Logger.new (config : Option LogConfig) (now : String) : Logger :=
  let config := config.getD LogConfig.new
  { config := config
    filePath :=
      "logs/" ++ config.filePfx ++
        (((now.replace "." "-").replace ":" "-").replace " " "T") ++ ".log"
    fileLines := [] }

/-- The line format `"{}:{:?} {}\n"` of `Logger::log` (logger.rs line 83):
Display of the level, then the debug-formatted caller frame, then the
message. -/
def formatLine (log_level : LogLevel) (caller_name message : String) : String :=
  log_level.display ++ ":" ++ caller_name ++ " " ++ message ++ "\n"

/-- Rust `Logger::log` (logger.rs lines 72-86). `callerFrame` is the result
of the backtrace walk `bt.frames().iter().rev().nth_back(4)` (debug-formatted
when present); its `.expect("Could not get caller name")` runs BEFORE the
level check, and the write happens only when
`log_level >= self.config.level` under the derived discriminant order. -/
def Logger.log (l : Logger) (callerFrame : Option String) (message : String)
    (log_level : LogLevel) : Except String Logger :=
  match callerFrame with
  | none => .error "Could not get caller name"
  | some caller_name =>
    if l.config.level.severity ≤ log_level.severity then
      .ok { l with fileLines := l.fileLines ++ [formatLine log_level caller_name message] }
    else
      .ok l

/-- Rust `Logger::debug` (logger.rs lines 89-91). -/
def Logger.debug (l : Logger) (callerFrame : Option String) (message : String) :
    Except String Logger :=
  l.log callerFrame message .Debug

/-- Rust `Logger::info` (logger.rs lines 93-95). -/
def Logger.info (l : Logger) (callerFrame : Option String) (message : String) :
    Except String Logger :=
  l.log callerFrame message .Info

/-- Rust `Logger::warn` (logger.rs lines 97-99). -/
def Logger.warn (l : Logger) (callerFrame : Option String) (message : String) :
    Except String Logger :=
  l.log callerFrame message .Warn

/-- Rust `Logger::error` (logger.rs lines 101-103). -/
def Logger.logError (l : Logger) (callerFrame : Option String) (message : String) :
    Except String Logger :=
  l.log callerFrame message .Error

/-- Rust `Logger::critical` (logger.rs lines 105-107). -/
def Logger.critical (l : Logger) (callerFrame : Option String) (message : String) :
    Except String Logger :=
  l.log callerFrame message .Critical

/-- Modelled from the spec: the repository defines the rotation-threshold
configuration model but never implements the rotation decision or file-swap
logic (the write path of `Logger::log` only appends). This is the mutable
state `ActiveFile` of the RollingWriter described in the spec, restricted to
the counters the rotation decision reads and resets; the path and OS handle
are abstracted away. `created_at` and `now` are instants in seconds. -/
structure ActiveFile where
  size_written_bytes : Nat
  created_at : Nat
deriving DecidableEq, Repr

/-- Modelled from the spec: the rotation check of the RollingWriter write
path. If `current_size + line_length > size_threshold.bytes` or
`now - created_at >= time_threshold.seconds`, the current file is closed and
replaced by a fresh one with `size_written_bytes = 0` and
`created_at = now`; otherwise the active file is kept. -/
def rotation_check (policy : RollingConfig) (af : ActiveFile) (line_length now : Nat) :
    ActiveFile :=
  if af.size_written_bytes + line_length > policy.size_threshold.toBytes
      ∨ now - af.created_at ≥ policy.time_threshold.toSecs then
    { size_written_bytes := 0, created_at := now }
  else
    af

/-- Modelled from the spec: the RollingWriter write path for one accepted log
call: run the rotation check, then append the line to the (possibly
just-rotated) active file, incrementing `size_written_bytes` by the written
length. -/
def write_line (policy : RollingConfig) (af : ActiveFile) (line_length now : Nat) :
    ActiveFile :=
  let checked := rotation_check policy af line_length now
  { checked with size_written_bytes := checked.size_written_bytes + line_length }

/-- C9: constructing a Logger with no config supplied equals constructing it
with the default config explicitly; in particular its config is the default
config. -/
theorem C9_new_none_is_default :
    ∀ now : String,
      Logger.new none now = Logger.new (some LogConfig.new) now
        ∧ (Logger.new none now).config = LogConfig.new :=
  fun _ => ⟨rfl, rfl⟩

/-- C10: each builder sets exactly its own field: `with_level`,
`with_rolling_config` and `with_file_pfx` on `LogConfig`, and
`with_time_threshold` / `with_size_threshold` on `RollingConfig`, each leave
every other field unchanged. -/
theorem C10_builders_frame :
    (∀ (c : LogConfig) (l : LogLevel),
        (c.with_level l).level = l
          ∧ (c.with_level l).rolling_config = c.rolling_config
          ∧ (c.with_level l).filePfx = c.filePfx)
    ∧ (∀ (c : LogConfig) (r : RollingConfig),
        (c.with_rolling_config r).rolling_config = r
          ∧ (c.with_rolling_config r).level = c.level
          ∧ (c.with_rolling_config r).filePfx = c.filePfx)
    ∧ (∀ (c : LogConfig) (p : String),
        (c.with_file_pfx p).filePfx = p
          ∧ (c.with_file_pfx p).level = c.level
          ∧ (c.with_file_pfx p).rolling_config = c.rolling_config)
    ∧ (∀ (rc : RollingConfig) (t : RollingTimeOptions),
        (rc.with_time_threshold t).time_threshold = t
          ∧ (rc.with_time_threshold t).size_threshold = rc.size_threshold)
    ∧ (∀ (rc : RollingConfig) (s : RollingSizeOptions),
        (rc.with_size_threshold s).size_threshold = s
          ∧ (rc.with_size_threshold s).time_threshold = rc.time_threshold) :=
  ⟨fun _ _ => ⟨rfl, rfl, rfl⟩, fun _ _ => ⟨rfl, rfl, rfl⟩, fun _ _ => ⟨rfl, rfl, rfl⟩,
    fun _ _ => ⟨rfl, rfl⟩, fun _ _ => ⟨rfl, rfl⟩⟩

/-- C7 counterexample: on a default logger, a Critical call whose caller
frame is unavailable does NOT fall back to an "unknown" marker and emit; it
fails with the panic `Could not get caller name`. -/
theorem C7_counterexample :
    Logger.log (Logger.new none "2024-01-01 00:00:00.000 UTC") none "x" .Critical
      = .error "Could not get caller name" := rfl

/-- C7 amended: when the caller-context identifier cannot be obtained, the
log call fails with the panic `Could not get caller name` before the level
check; no line is emitted and no fallback marker exists. -/
theorem C7_amended_caller_panic :
    ∀ (l : Logger) (message : String) (log_level : LogLevel),
      Logger.log l none message log_level = .error "Could not get caller name" :=
  fun _ _ _ => rfl

/-- C4: loading a document whose rolling_config holds a size or time
threshold outside its catalog fails with the invalid-threshold error (the
`unwrap` panic on `from_u64`'s `Err`), producing no config. -/
theorem C4_out_of_catalog_threshold_fails :
    LogConfig.from_json_file
        (.obj [("rolling_config", .obj [("size_threshold", .num 999)])])
      = .error "Value does not match any known size option"
    ∧ LogConfig.from_json_file
        (.obj [("rolling_config", .obj [("time_threshold", .num 7)])])
      = .error "Value does not match any known time option" :=
  ⟨rfl, rfl⟩

/-- C5: the document with only `level = 2` yields level Warn with the default
rolling policy (Hourly = 3600 s, FiveMB = 5242880 bytes) and default prefix
"Logtar_"; an empty document yields the all-default config; a document with
only a prefix keeps level and rolling policy at their defaults. -/
theorem C5_absent_keys_take_defaults :
    LogConfig.from_json_file (.obj [("level", .num 2)])
      = .ok { level := .Warn
              rolling_config := { time_threshold := .Hourly, size_threshold := .FiveMB }
              filePfx := "Logtar_" }
    ∧ LogConfig.from_json_file (.obj []) = .ok LogConfig.new
    ∧ (∀ s : String,
        LogConfig.from_json_file (.obj [("file_prefix", .str s)])
          = .ok { level := .Info
                  rolling_config := { time_threshold := .Hourly, size_threshold := .FiveMB }
                  filePfx := s })
    ∧ RollingSizeOptions.FiveMB.toBytes = 5 * 1024 * 1024
    ∧ RollingTimeOptions.Hourly.toSecs = 60 * 60 :=
  ⟨rfl, rfl, fun _ => rfl, rfl, rfl⟩

/-- C6: a log call whose message level is below the configured level returns
with the file contents untouched: no line is appended. -/
theorem C6_suppressed_call_skips_write (l : Logger) (c message : String) (log_level : LogLevel)
    (h : log_level.severity < l.config.level.severity) :
    Logger.log l (some c) message log_level = .ok l := by
  have hn : ¬ l.config.level.severity ≤ log_level.severity := Nat.not_le.mpr h
  simp [Logger.log, hn]

/-- C6 witness: Debug is below the default level Info, and the corresponding
call leaves the default logger unchanged. -/
theorem C6_suppressed_call_skips_write_witness :
    LogLevel.Debug.severity < (Logger.new none "t").config.level.severity
      ∧ Logger.log (Logger.new none "t") (some "frame") "x" .Debug
          = .ok (Logger.new none "t") :=
  ⟨by decide, C6_suppressed_call_skips_write (Logger.new none "t") "frame" "x" .Debug (by decide)⟩

/-- C1: in the spec-modelled RollingWriter write path, the rotation check
rotates exactly when the pending line would overflow the size threshold or
the file's age has reached the time threshold (resetting the counters), and
afterwards `size_written_bytes` never exceeds the size threshold; the line
is then appended to the checked file, adding its length to the counter. -/
theorem C1_rotation_check_bounds_size :
    ∀ (policy : RollingConfig) (af : ActiveFile) (line_length now : Nat),
      (rotation_check policy af line_length now
          = if af.size_written_bytes + line_length > policy.size_threshold.toBytes
                ∨ now - af.created_at ≥ policy.time_threshold.toSecs
            then { size_written_bytes := 0, created_at := now }
            else af)
        ∧ (rotation_check policy af line_length now).size_written_bytes
            ≤ policy.size_threshold.toBytes
        ∧ (write_line policy af line_length now).size_written_bytes
            = (rotation_check policy af line_length now).size_written_bytes + line_length := by
  intro policy af line_length now
  refine ⟨rfl, ?_, rfl⟩
  unfold rotation_check
  split
  · exact Nat.zero_le _
  · next hcond =>
      push_neg at hcond
      omega

/-- C2: with the caller frame available, a log call appends exactly its
formatted line when the message severity is at least the configured
severity, and leaves the file untouched when it is strictly below; the
severities realize the total order Debug < Info < Warn < Error < Critical;
and on a default-config logger, `debug "x"` then `critical "y"` emits
exactly the one critical line. -/
theorem C2_emit_iff_at_least_configured :
    (∀ (l : Logger) (c message : String) (log_level : LogLevel),
        ∃ res, Logger.log l (some c) message log_level = .ok res
          ∧ ((l.config.level.severity ≤ log_level.severity
                ∧ res.fileLines = l.fileLines ++ [formatLine log_level c message])
              ∨ (log_level.severity < l.config.level.severity
                ∧ res.fileLines = l.fileLines)))
    ∧ (LogLevel.Debug.severity < LogLevel.Info.severity
        ∧ LogLevel.Info.severity < LogLevel.Warn.severity
        ∧ LogLevel.Warn.severity < LogLevel.Error.severity
        ∧ LogLevel.Error.severity < LogLevel.Critical.severity)
    ∧ (∀ (now c1 c2 : String),
        ((Logger.new none now).debug (some c1) "x").bind
            (fun l1 => l1.critical (some c2) "y")
          = .ok { Logger.new none now with
                    fileLines := [formatLine .Critical c2 "y"] }) := by
  refine ⟨?_, by decide, ?_⟩
  · intro l c message log_level
    by_cases hle : l.config.level.severity ≤ log_level.severity
    · refine ⟨{ l with fileLines := l.fileLines ++ [formatLine log_level c message] },
        ?_, .inl ⟨hle, rfl⟩⟩
      simp [Logger.log, hle]
    · refine ⟨l, ?_, .inr ⟨Nat.not_le.mp hle, rfl⟩⟩
      simp [Logger.log, hle]
  · intro now c1 c2
    rfl

/-- C3: every size-catalog value round-trips through `from_u64`, and
`from_u64` yields the invalid-threshold error exactly on the values that are
the byte value of no catalog entry; in particular the nearby value 2048 is
rejected. -/
theorem C3_size_catalog_exact_match :
    (∀ s : RollingSizeOptions, RollingSizeOptions.from_u64 s.toBytes = .ok s)
    ∧ (∀ n : Nat,
        RollingSizeOptions.from_u64 n
            = .error "Value does not match any known size option"
          ↔ ∀ s : RollingSizeOptions, s.toBytes ≠ n)
    ∧ RollingSizeOptions.from_u64 2048
        = .error "Value does not match any known size option" := by
  refine ⟨?_, ?_, by decide⟩
  · intro s
    cases s <;> decide
  · intro n
    constructor
    · intro h s hs
      rw [← hs] at h
      cases s <;> exact absurd h (by decide)
    · intro h
      unfold RollingSizeOptions.from_u64
      rw [if_neg fun heq => h _ heq.symm, if_neg fun heq => h _ heq.symm,
        if_neg fun heq => h _ heq.symm, if_neg fun heq => h _ heq.symm,
        if_neg fun heq => h _ heq.symm, if_neg fun heq => h _ heq.symm,
        if_neg fun heq => h _ heq.symm, if_neg fun heq => h _ heq.symm,
        if_neg fun heq => h _ heq.symm, if_neg fun heq => h _ heq.symm,
        if_neg fun heq => h _ heq.symm, if_neg fun heq => h _ heq.symm,
        if_neg fun heq => h _ heq.symm]

/-- The keys recognized by the `RollingConfig::from_json` loop. -/
def isRollingKey (k : String) : Bool :=
  k == "size_threshold" || k == "time_threshold"

/-- The top-level keys recognized by the `LogConfig::from_json_file` loop. -/
def isTopKey (k : String) : Bool :=
  k == "level" || k == "rolling_config" || k == "file_prefix"

/-- Removing the unrecognized keys of a rolling_config object; any other
JSON value is left alone. -/
def scrubRolling : JsonValue → JsonValue
  | .obj entries => .obj (entries.filter fun kv => isRollingKey kv.1)
  | j => j

/-- A top-level entry with the nested rolling_config object scrubbed. -/
def scrubEntry (kv : String × JsonValue) : String × JsonValue :=
  if kv.1 == "rolling_config" then (kv.1, scrubRolling kv.2) else kv

/-- Removing the unrecognized keys of a configuration document, at top level
and inside rolling_config. -/
def scrubTop : JsonValue → JsonValue
  | .obj entries => .obj ((entries.filter fun kv => isTopKey kv.1).map scrubEntry)
  | j => j

lemma rollingApplyKey_unrecognized (rc : RollingConfig) (k : String) (v : JsonValue)
    (h : isRollingKey k = false) : RollingConfig.applyKey rc k v = .ok rc := by
  simp only [isRollingKey, Bool.or_eq_false_iff, beq_eq_false_iff_ne, ne_eq] at h
  unfold RollingConfig.applyKey
  rw [if_neg h.1, if_neg h.2]

lemma rollingApplyKeys_scrub (entries : List (String × JsonValue)) :
    ∀ rc : RollingConfig,
      RollingConfig.applyKeys rc (entries.filter fun kv => isRollingKey kv.1)
        = RollingConfig.applyKeys rc entries := by
  induction entries with
  | nil => intro rc; rfl
  | cons kv rest ih =>
    intro rc
    obtain ⟨k, v⟩ := kv
    rw [List.filter_cons]
    by_cases hk : isRollingKey k
    · simp only [hk, if_true]
      unfold RollingConfig.applyKeys
      cases happ : RollingConfig.applyKey rc k v with
      | error e => rfl
      | ok c => exact ih c
    · simp only [Bool.not_eq_true] at hk
      simp only [hk, Bool.false_eq_true, if_false]
      conv_rhs => unfold RollingConfig.applyKeys
      rw [rollingApplyKey_unrecognized rc k v hk]
      exact ih rc

lemma rollingFromJson_scrub (v : JsonValue) :
    RollingConfig.from_json (scrubRolling v) = RollingConfig.from_json v := by
  cases v with
  | obj entries =>
    show RollingConfig.applyKeys RollingConfig.new _ = RollingConfig.applyKeys RollingConfig.new _
    exact rollingApplyKeys_scrub entries RollingConfig.new
  | num n => rfl
  | str s => rfl
  | other => rfl

lemma topApplyKey_unrecognized (c : LogConfig) (k : String) (v : JsonValue)
    (h : isTopKey k = false) : LogConfig.applyKey c k v = .ok c := by
  simp only [isTopKey, Bool.or_eq_false_iff, beq_eq_false_iff_ne, ne_eq] at h
  unfold LogConfig.applyKey
  rw [if_neg h.1.1, if_neg h.1.2, if_neg h.2]

lemma topApplyKey_scrubEntry (c : LogConfig) (k : String) (v : JsonValue) :
    LogConfig.applyKey c (scrubEntry (k, v)).1 (scrubEntry (k, v)).2
      = LogConfig.applyKey c k v := by
  unfold scrubEntry
  by_cases hk : k = "rolling_config"
  · subst hk
    simp [LogConfig.applyKey, rollingFromJson_scrub v]
  · simp only [beq_eq_false_iff_ne.mpr hk, Bool.false_eq_true, if_false]

lemma topApplyKeys_scrub (entries : List (String × JsonValue)) :
    ∀ c : LogConfig,
      LogConfig.applyKeys c ((entries.filter fun kv => isTopKey kv.1).map scrubEntry)
        = LogConfig.applyKeys c entries := by
  induction entries with
  | nil => intro c; rfl
  | cons kv rest ih =>
    intro c
    obtain ⟨k, v⟩ := kv
    rw [List.filter_cons]
    by_cases hk : isTopKey k
    · simp only [hk, if_true, List.map_cons]
      unfold LogConfig.applyKeys
      rw [topApplyKey_scrubEntry c k v]
      cases happ : LogConfig.applyKey c k v with
      | error e => rfl
      | ok c2 => exact ih c2
    · simp only [Bool.not_eq_true] at hk
      simp only [hk, Bool.false_eq_true, if_false]
      conv_rhs => unfold LogConfig.applyKeys
      rw [topApplyKey_unrecognized c k v hk]
      exact ih c

/-- C8: loading a configuration document is insensitive to unrecognized
keys: removing every key other than level / rolling_config / file_prefix at
top level and size_threshold / time_threshold inside rolling_config yields
the same result as loading the original document. -/
theorem C8_unrecognized_keys_ignored :
    ∀ j : JsonValue, LogConfig.from_json_file (scrubTop j) = LogConfig.from_json_file j := by
  intro j
  cases j with
  | obj entries =>
    show LogConfig.applyKeys LogConfig.new _ = LogConfig.applyKeys LogConfig.new _
    exact topApplyKeys_scrub entries LogConfig.new
  | num n => rfl
  | str s => rfl
  | other => rfl
